import Mathlib

/-!
# WealthTrack valuation and rebalancing engine: a shallow embedding

This file embeds the pure computation pipeline of the WealthTrack portfolio
tracker (position valuation, account aggregation, portfolio totals,
rebalancing advice, and the batch price refresh) as Lean definitions over ℚ,
and proves the specification's claims about it.

JavaScript numeric coercion `x || d` on optionally-present fields is modelled
with `Option ℚ`: `none` stands for a missing (`undefined`/`null`) or
non-numeric value, and the coercion helpers reproduce the falsiness of `0`.
-/

namespace WealthTrack

/-- The user-selectable base currency (`'HKD' | 'TWD'` in the source);
HKD is also the fixed anchor currency. -/
inductive BaseCurrency
  | hkd
  | twd
deriving DecidableEq, Repr

/-- An investment position (the `Investment` interface of `types.ts`).
Numeric fields that can be absent or null in the stored record are `Option ℚ`. -/
structure Investment where
  id : ℕ
  symbol : String
  name : String
  currency : String
  currentPrice : Option ℚ
  exchangeRate : Option ℚ
  overrideShares : Option ℚ
  initialPurchasePrice : Option ℚ
  targetAllocation : ℚ
  lastUpdated : Option ℕ
  dataSource : Option String
deriving DecidableEq, Repr

/-- A cash or brokerage account (the `AssetAccount` interface of `types.ts`). -/
structure AssetAccount where
  id : ℕ
  name : String
  currency : String
  amount : Option ℚ
  exchangeRate : Option ℚ
  autoFromInvestments : Bool
deriving DecidableEq, Repr

/-- The settings the pipeline reads: the selected base currency and the
`hkdTwdRate` scalar. -/
structure Settings where
  baseCurrency : BaseCurrency
  hkdTwdRate : ℚ
deriving DecidableEq, Repr

/-- JavaScript `x || 0` on an optionally-present numeric field: a missing or
non-numeric value becomes `0`; a present number is kept (`0 || 0 = 0`). -/
def orZero : Option ℚ → ℚ
  | none => 0
  | some x => x

/-- JavaScript `x || 1` on an optionally-present rate field: a missing or
non-numeric value becomes `1`, and so does a stored `0` (zero is falsy). -/
def orOne : Option ℚ → ℚ
  | none => 1
  | some x => if x = 0 then 1 else x

/-- `toBase` (source line 209): convert an HKD (anchor) amount to the base
currency; the identity for HKD, multiplication by `hkdTwdRate` for TWD. -/
def toBase (s : Settings) (hkdValue : ℚ) : ℚ :=
  if s.baseCurrency = BaseCurrency.hkd then hkdValue else hkdValue * s.hkdTwdRate

/-- `valueHKD` of one position (source line 221):
`shares * currentPrice * rateToHkd` after coercion. -/
def valueHKD (inv : Investment) : ℚ :=
  orZero inv.overrideShares * orZero inv.currentPrice * orOne inv.exchangeRate

/-- `costHKD` of one position (source line 222):
`shares * buyPrice * rateToHkd` after coercion. -/
def costHKD (inv : Investment) : ℚ :=
  orZero inv.overrideShares * orZero inv.initialPurchasePrice * orOne inv.exchangeRate

/-- The derived record produced for one position by `invDetails`
(source lines 214-236): the original record plus the computed figures. -/
structure InvDetail where
  inv : Investment
  shares : ℚ
  buyPrice : ℚ
  costBase : ℚ
  valueBase : ℚ
  profitBase : ℚ
  profitPct : ℚ
deriving DecidableEq, Repr

/-- One step of the `invDetails` map (source lines 215-234). -/
def invDetail (s : Settings) (inv : Investment) : InvDetail :=
  let shares := orZero inv.overrideShares
  let buyPrice := orZero inv.initialPurchasePrice
  let vHKD := valueHKD inv
  let cHKD := costHKD inv
  let pHKD := vHKD - cHKD
  let pct := if cHKD > 0 then (pHKD / cHKD) * 100 else 0
  { inv := inv
    shares := shares
    buyPrice := buyPrice
    costBase := toBase s cHKD
    valueBase := toBase s vHKD
    profitBase := toBase s pHKD
    profitPct := pct }

/-- `invDetails` (source line 214): the per-position derivation mapped over
the positions list. -/
def invDetails (s : Settings) (invs : List Investment) : List InvDetail :=
  invs.map (invDetail s)

/-- `totalInvBase` (source line 238): `invDetails.reduce((s, i) => s + i.valueBase, 0)`. -/
def totalInvBase (s : Settings) (invs : List Investment) : ℚ :=
  (invDetails s invs).foldl (fun acc i => acc + i.valueBase) 0

/-- `totalInvHKD` (source line 243): the base-currency investment total
converted back to the anchor, `totalInvBase / (baseCurrency === 'HKD' ? 1 : hkdTwdRate)`. -/
def totalInvHKD (s : Settings) (tib : ℚ) : ℚ :=
  tib / (if s.baseCurrency = BaseCurrency.hkd then 1 else s.hkdTwdRate)

/-- The derived record produced for one account by `processedAccounts`
(source lines 240-248). -/
structure ProcessedAccount where
  acc : AssetAccount
  amount : ℚ
  amountBase : ℚ
deriving DecidableEq, Repr

/-- One step of the `processedAccounts` map (source lines 241-247);
`tib` is the in-scope `totalInvBase`. -/
def processAccount (s : Settings) (tib : ℚ) (acc : AssetAccount) : ProcessedAccount :=
  let rateToHkd := orOne acc.exchangeRate
  let tHKD := totalInvHKD s tib
  let amount := if acc.autoFromInvestments then tHKD / rateToHkd else orZero acc.amount
  let amountHKD := amount * rateToHkd
  { acc := acc
    amount := amount
    amountBase := toBase s amountHKD }

/-- `processedAccounts` (source line 240). -/
def processedAccounts (s : Settings) (invs : List Investment)
    (accs : List AssetAccount) : List ProcessedAccount :=
  accs.map (processAccount s (totalInvBase s invs))

/-- `totalAssetsBase` (source line 250):
`processedAccounts.reduce((acc, a) => acc + a.amountBase, 0)`. -/
def totalAssetsBase (s : Settings) (invs : List Investment)
    (accs : List AssetAccount) : ℚ :=
  (processedAccounts s invs accs).foldl (fun acc a => acc + a.amountBase) 0

/-- The liquid-cash figure displayed at source line 317:
`totalAssetsBase - totalInvBase`. -/
def liquidCashBase (s : Settings) (invs : List Investment)
    (accs : List AssetAccount) : ℚ :=
  totalAssetsBase s invs accs - totalInvBase s invs

/-- `totalFutureValueBase` (source line 252): `totalInvBase + toBase(monthlyBudget)`.
Note the code passes the monthly budget through `toBase`. -/
def totalFutureValueBase (s : Settings) (tib monthlyBudget : ℚ) : ℚ :=
  tib + toBase s monthlyBudget

/-- The derived record produced for one position by `rebalanceAdvice`
(source lines 253-264). -/
structure RebalanceAdvice where
  detail : InvDetail
  suggest : ℚ
  gap : ℚ
  currentPct : ℚ
deriving DecidableEq, Repr

/-- One step of the `rebalanceAdvice` map (source lines 253-263); `tib` and
`tfv` are the in-scope `totalInvBase` and `totalFutureValueBase`.

The source computes `priceHKD = inv.currentPrice * (inv.exchangeRate || 1)`
without coercing `currentPrice`; a missing `currentPrice` makes `priceHKD`
(and `priceBase`) NaN, and `NaN > 0` is false, so `suggest` falls to the
zero branch — modelled here by the `none` case. -/
def rebalanceOne (s : Settings) (tib tfv : ℚ) (d : InvDetail) : RebalanceAdvice :=
  let targetVal := (d.inv.targetAllocation / 100) * tfv
  let gap := targetVal - d.valueBase
  let suggest :=
    match d.inv.currentPrice with
    | none => 0
    | some p =>
        let priceHKD := p * orOne d.inv.exchangeRate
        let priceBase := toBase s priceHKD
        if priceBase > 0 then gap / priceBase else 0
  let currentPct := if tib > 0 then (d.valueBase / tib) * 100 else 0
  { detail := d
    suggest := suggest
    gap := gap
    currentPct := currentPct }

/-- `rebalanceAdvice` (source line 253): the per-position advice mapped over
`invDetails`, with the projected total in scope. -/
def rebalanceAdvice (s : Settings) (invs : List Investment)
    (monthlyBudget : ℚ) : List RebalanceAdvice :=
  let tib := totalInvBase s invs
  let tfv := totalFutureValueBase s tib monthlyBudget
  (invDetails s invs).map (rebalanceOne s tib tfv)

/-- A successful price-lookup result
(`PriceService.fetchRealtimePrice`, source lines 37-76; `sourceUrls` are
not merged into the position record and are omitted). -/
structure FetchResult where
  price : ℚ
  name : String
  currency : String
deriving DecidableEq, Repr

/-- The merge performed for one position inside the `syncAll` loop
(source lines 190-201): a `null` lookup leaves the record untouched; a
successful lookup overwrites only price, name, currency, timestamp and
provenance. -/
def applyFetch (now : ℕ) (inv : Investment) : Option FetchResult → Investment
  | none => inv
  | some r =>
      { inv with
        currentPrice := some r.price
        name := r.name
        currency := r.currency
        lastUpdated := some now
        dataSource := some "Google Search API" }

/-- The batch refresh `syncAll` (source lines 188-203) restricted to its
effect on the positions list: each position's symbol is looked up in turn and
the result merged; the oracle abstracts `PriceService.fetchRealtimePrice`. -/
def syncAll (oracle : String → Option FetchResult) (now : ℕ)
    (invs : List Investment) : List Investment :=
  invs.map (fun inv => applyFetch now inv (oracle inv.symbol))

/-- The scalar by which `toBase` multiplies: `1` for HKD, `hkdTwdRate` for TWD. -/
def baseFactor (s : Settings) : ℚ :=
  if s.baseCurrency = BaseCurrency.hkd then 1 else s.hkdTwdRate

/-- Spec-side definition (spec §4.3): the total invested value in the anchor
currency, summed directly over positions, to be compared with the code's
round trip through the base currency (`totalInvHKD` of `totalInvBase`). -/
def specTotalInvestedAnchor (invs : List Investment) : ℚ :=
  (invs.map valueHKD).sum

/-- A position record with the data-model defaults filled in for every
optionally-present numeric field (0, and 1 for the rate). -/
def fillDefaults (inv : Investment) : Investment :=
  { inv with
    currentPrice := some (inv.currentPrice.getD 0)
    overrideShares := some (inv.overrideShares.getD 0)
    initialPurchasePrice := some (inv.initialPurchasePrice.getD 0)
    exchangeRate := some (inv.exchangeRate.getD 1) }

/-- An account record with the data-model defaults filled in. -/
def fillAccountDefaults (acc : AssetAccount) : AssetAccount :=
  { acc with
    amount := some (acc.amount.getD 0)
    exchangeRate := some (acc.exchangeRate.getD 1) }

/-- The sample position of the end-to-end scenario: 10 shares at price 512,
cost basis 480, exchange rate 7.82 = 391/50. -/
def demoInv : Investment :=
  { id := 1
    symbol := "VOO"
    name := "SP500 ETF"
    currency := "USD"
    currentPrice := some 512
    exchangeRate := some (391/50)
    overrideShares := some 10
    initialPurchasePrice := some 480
    targetAllocation := 60
    lastUpdated := none
    dataSource := none }

/-- The auto-derived sample account of the end-to-end scenario, with
exchange rate 7.82 = 391/50. -/
def demoAcc : AssetAccount :=
  { id := 2
    name := "US broker"
    currency := "USD"
    amount := none
    exchangeRate := some (391/50)
    autoFromInvestments := true }

/-- A position with zero shares, zero prices and a missing rate, used to
exercise the division guards. -/
def zeroInv : Investment :=
  { id := 3
    symbol := "ZERO"
    name := "zero"
    currency := "USD"
    currentPrice := some 0
    exchangeRate := none
    overrideShares := some 0
    initialPurchasePrice := some 0
    targetAllocation := 0
    lastUpdated := none
    dataSource := none }

/-- A position whose stored exchange rate is exactly 0. -/
def zeroRateInv : Investment :=
  { id := 4
    symbol := "ZR"
    name := "zero rate"
    currency := "USD"
    currentPrice := some 512
    exchangeRate := some 0
    overrideShares := some 10
    initialPurchasePrice := some 480
    targetAllocation := 60
    lastUpdated := none
    dataSource := none }

/-- An auto-derived account whose stored exchange rate is exactly 0. -/
def zeroRateAcc : AssetAccount :=
  { id := 5
    name := "zero rate acc"
    currency := "USD"
    amount := none
    exchangeRate := some 0
    autoFromInvestments := true }

/-- An oracle for which every lookup fails. -/
def noneOracle : String → Option FetchResult := fun _ => none

/-- An oracle that succeeds for the sample symbol and fails otherwise. -/
def demoOracle : String → Option FetchResult := fun sym =>
  if sym = "VOO" then some { price := 520, name := "Vanguard SP500", currency := "USD" }
  else none

/-- The refresh-related UI state: the `isUpdating` busy flag and the number
of `syncAll` invocations currently in flight. -/
structure UIState where
  isUpdating : Bool
  inFlight : ℕ
deriving DecidableEq, Repr

/-- Refresh-related UI events: a click on the header refresh button
(source line 302, rendered with `disabled={isUpdating}`), a click on the
floating nav refresh button (source line 521, rendered without a `disabled`
attribute), and completion of a running `syncAll`. -/
inductive UIEvent
  | headerRefreshClick
  | navRefreshClick
  | syncAllFinish
deriving DecidableEq, Repr

/-- One UI transition. A click on an enabled refresh control invokes
`syncAll`, which sets `isUpdating` to true at entry (source line 181) and to
false on completion (source line 205) and contains no busy check of its own.
A disabled button click does nothing, so the header button is inert while
`isUpdating` holds; the nav button has no `disabled` attribute and always
starts another `syncAll`. -/
def step : UIState → UIEvent → UIState
  | s, UIEvent.headerRefreshClick =>
      if s.isUpdating then s else { isUpdating := true, inFlight := s.inFlight + 1 }
  | s, UIEvent.navRefreshClick => { isUpdating := true, inFlight := s.inFlight + 1 }
  | s, UIEvent.syncAllFinish => { isUpdating := false, inFlight := s.inFlight - 1 }

/-- Run a sequence of UI events from a state. -/
def runUI (s : UIState) (es : List UIEvent) : UIState :=
  es.foldl step s

/-! ## Helper lemmas -/

theorem foldl_add_valueBase (l : List InvDetail) (a : ℚ) :
    l.foldl (fun acc i => acc + i.valueBase) a = a + (l.map InvDetail.valueBase).sum := by
  induction l generalizing a with
  | nil => simp
  | cons x xs ih => simp [List.foldl_cons, ih, add_assoc]

theorem toBase_eq_mul (s : Settings) (v : ℚ) : toBase s v = v * baseFactor s := by
  unfold toBase baseFactor
  split <;> ring

theorem baseFactor_pos (s : Settings)
    (hk : s.baseCurrency = BaseCurrency.hkd ∨ 0 < s.hkdTwdRate) : 0 < baseFactor s := by
  unfold baseFactor
  rcases hk with h | h
  · simp [h]
  · split
    · norm_num
    · exact h

theorem invDetail_valueBase (s : Settings) (inv : Investment) :
    (invDetail s inv).valueBase = valueHKD inv * baseFactor s := by
  simp [invDetail, toBase_eq_mul]

theorem invDetail_costBase (s : Settings) (inv : Investment) :
    (invDetail s inv).costBase = costHKD inv * baseFactor s := by
  simp [invDetail, toBase_eq_mul]

theorem invDetail_profitBase (s : Settings) (inv : Investment) :
    (invDetail s inv).profitBase = (valueHKD inv - costHKD inv) * baseFactor s := by
  simp [invDetail, toBase_eq_mul]

theorem totalInvBase_eq_sum (s : Settings) (invs : List Investment) :
    totalInvBase s invs = specTotalInvestedAnchor invs * baseFactor s := by
  unfold totalInvBase invDetails specTotalInvestedAnchor
  rw [foldl_add_valueBase, zero_add, List.map_map]
  have hfun : (InvDetail.valueBase ∘ invDetail s) = fun i => valueHKD i * baseFactor s := by
    funext i
    simpa using invDetail_valueBase s i
  rw [hfun, List.sum_map_mul_right]

theorem totalInvHKD_recovers (s : Settings) (invs : List Investment)
    (hk : s.baseCurrency = BaseCurrency.hkd ∨ 0 < s.hkdTwdRate) :
    totalInvHKD s (totalInvBase s invs) = specTotalInvestedAnchor invs := by
  have hne : baseFactor s ≠ 0 := ne_of_gt (baseFactor_pos s hk)
  unfold totalInvHKD
  rw [totalInvBase_eq_sum,
    show (if s.baseCurrency = BaseCurrency.hkd then (1 : ℚ) else s.hkdTwdRate)
        = baseFactor s from rfl,
    mul_div_assoc, div_self hne, mul_one]

theorem orZero_fill (o : Option ℚ) : orZero (some (o.getD 0)) = orZero o := by
  cases o <;> simp [orZero]

theorem orOne_fill (o : Option ℚ) : orOne (some (o.getD 1)) = orOne o := by
  cases o <;> simp [orOne]

theorem toBase_zero (s : Settings) : toBase s 0 = 0 := by
  simp [toBase]

/-! ## Claim theorems -/

/-- C1: for every position, with the optional fields coerced per the data
model (0, and 1 for the rate), the valuation computes
`valueInAnchor = shareCount * currentPrice * fxToAnchor`,
`costInAnchor = shareCount * costBasisPrice * fxToAnchor`,
`profitInAnchor = valueInAnchor - costInAnchor`,
`profitPct = (profitInAnchor / costInAnchor) * 100` when `costInAnchor > 0`
and `0` otherwise, with the base figures `toBase` of the anchor figures; and
for `shareCount = 10`, `currentPrice = 512`, `fxToAnchor = 7.82`,
`costBasisPrice = 480` with base = anchor (HKD), `valueBase = 40038.4`,
`costBase = 37536`, `profitBase = 2502.4`,
`profitPct = (2502.4 / 37536) * 100`. -/
theorem C1_position_valuation (s : Settings) (inv : Investment) (r : ℚ) :
    ((invDetail s inv).valueBase = toBase s (valueHKD inv) ∧
      (invDetail s inv).costBase = toBase s (costHKD inv) ∧
      (invDetail s inv).profitBase = toBase s (valueHKD inv - costHKD inv) ∧
      valueHKD inv
        = orZero inv.overrideShares * orZero inv.currentPrice * orOne inv.exchangeRate ∧
      costHKD inv
        = orZero inv.overrideShares * orZero inv.initialPurchasePrice * orOne inv.exchangeRate ∧
      (invDetail s inv).profitPct
        = (if costHKD inv > 0
            then ((valueHKD inv - costHKD inv) / costHKD inv) * 100 else 0)) ∧
    ((invDetail ⟨BaseCurrency.hkd, r⟩ demoInv).valueBase = 200192 / 5 ∧
      (invDetail ⟨BaseCurrency.hkd, r⟩ demoInv).costBase = 37536 ∧
      (invDetail ⟨BaseCurrency.hkd, r⟩ demoInv).profitBase = 12512 / 5 ∧
      (invDetail ⟨BaseCurrency.hkd, r⟩ demoInv).profitPct
        = (12512 / 5) / 37536 * 100) := by
  refine ⟨⟨rfl, rfl, rfl, rfl, rfl, rfl⟩, ?_⟩
  norm_num [invDetail, demoInv, toBase, valueHKD, costHKD, orZero, orOne]

/-- C2 counterexample: with the base currency TWD and `hkdTwdRate = 4.15`,
the projected total over an empty position list and a monthly contribution
of 10000 is 41500, not `totalInvestedBase + monthlyContribution = 10000`:
the code passes the contribution through `toBase`. -/
theorem C2_counterexample :
    totalFutureValueBase ⟨BaseCurrency.twd, 83 / 20⟩
        (totalInvBase ⟨BaseCurrency.twd, 83 / 20⟩ []) 10000
      ≠ totalInvBase ⟨BaseCurrency.twd, 83 / 20⟩ [] + 10000 := by
  rw [show totalInvBase ⟨BaseCurrency.twd, 83 / 20⟩ [] = 0 from rfl]
  have htwd : (BaseCurrency.twd = BaseCurrency.hkd) = False := by
    simp
  norm_num [totalFutureValueBase, toBase, htwd]

/-- C2 (amended): the rebalancing advisor's projected total equals
`totalInvestedBase` plus the monthly contribution passed through the
anchor-to-base conversion, `projectedTotalBase = totalInvestedBase +
toBase(monthlyContribution)`; when the base currency is the anchor (HKD),
`toBase` is the identity and the projected total equals
`totalInvestedBase + monthlyContribution`. -/
theorem C2_amended_projected_total (s : Settings) (tib m r : ℚ) :
    totalFutureValueBase s tib m = tib + toBase s m ∧
    totalFutureValueBase ⟨BaseCurrency.hkd, r⟩ tib m = tib + m :=
  ⟨rfl, rfl⟩

/-- C8: starting from the idle state, one click on the unguarded nav refresh
button (source line 521) starts a refresh and sets the busy flag, and a
second click while that refresh is still in flight starts a second
concurrent `syncAll` (two refreshes in flight), violating the single
in-flight refresh invariant; by contrast the header button (source line 302,
`disabled={isUpdating}`) is a no-op while busy. -/
theorem C8_concurrent_refresh_bug :
    (runUI ⟨false, 0⟩ [UIEvent.navRefreshClick]).isUpdating = true ∧
    (runUI ⟨false, 0⟩ [UIEvent.navRefreshClick]).inFlight = 1 ∧
    (runUI ⟨false, 0⟩ [UIEvent.navRefreshClick, UIEvent.navRefreshClick]).inFlight = 2 ∧
    step ⟨true, 1⟩ UIEvent.headerRefreshClick = ⟨true, 1⟩ := by
  decide

/-- C9: over the empty position list the sum of `valueBase` is exactly 0,
and the liquid-cash figure `totalAssetsBase - totalInvestedBase` equals
`totalAssetsBase`. -/
theorem C9_empty_positions (s : Settings) (accs : List AssetAccount) :
    totalInvBase s [] = 0 ∧
    liquidCashBase s [] accs = totalAssetsBase s [] accs := by
  refine ⟨rfl, ?_⟩
  unfold liquidCashBase
  rw [show totalInvBase s [] = 0 from rfl, sub_zero]

/-- C3: for every account with `autoFromInvestments` true (and a stored
nonzero exchange rate, with the base rate positive when base differs from
the anchor), account aggregation computes
`amountInAccountCurrency = totalInvestedAnchor / fxToAnchor`, and
`amountInAnchor = amountInAccountCurrency * fxToAnchor` recovers
`totalInvestedAnchor` exactly; for every account with `autoFromInvestments`
false the amount is the stored balance with null treated as 0; and
`fxToAnchor = 7.82` with `totalInvestedAnchor = 40038.4` yields
`amountInAccountCurrency = 5120` and `amountInAnchor = 40038.4`. -/
theorem C3_account_aggregation (s : Settings) (invs : List Investment)
    (acc : AssetAccount) (f : ℚ) (hf : acc.exchangeRate = some f) (hf0 : f ≠ 0)
    (hk : s.baseCurrency = BaseCurrency.hkd ∨ 0 < s.hkdTwdRate) :
    (acc.autoFromInvestments = true →
        (processAccount s (totalInvBase s invs) acc).amount
            = specTotalInvestedAnchor invs / f ∧
        (processAccount s (totalInvBase s invs) acc).amount * f
            = specTotalInvestedAnchor invs) ∧
    (acc.autoFromInvestments = false →
        (processAccount s (totalInvBase s invs) acc).amount = orZero acc.amount) ∧
    (processAccount ⟨BaseCurrency.hkd, 1⟩ (200192 / 5) demoAcc).amount = 5120 ∧
    (processAccount ⟨BaseCurrency.hkd, 1⟩ (200192 / 5) demoAcc).amount * (391 / 50)
        = 200192 / 5 := by
  have hrec := totalInvHKD_recovers s invs hk
  have horone : orOne acc.exchangeRate = f := by
    simp [orOne, hf, hf0]
  refine ⟨?_, ?_, ?_, ?_⟩
  · intro hauto
    have hamount : (processAccount s (totalInvBase s invs) acc).amount
        = specTotalInvestedAnchor invs / f := by
      simp [processAccount, hauto, horone, hrec]
    exact ⟨hamount, by rw [hamount, div_mul_cancel₀ _ hf0]⟩
  · intro hmanual
    simp [processAccount, hmanual]
  · norm_num [processAccount, demoAcc, totalInvHKD, orOne]
  · norm_num [processAccount, demoAcc, totalInvHKD, orOne]

/-- Witness for C3: the hypotheses hold and the conclusion follows at the
sample account over the one-position sample portfolio with base = HKD. -/
theorem C3_account_aggregation_witness :
    demoAcc.exchangeRate = some (391 / 50) ∧ (391 / 50 : ℚ) ≠ 0 ∧
    ((⟨BaseCurrency.hkd, 1⟩ : Settings).baseCurrency = BaseCurrency.hkd ∨
        0 < (⟨BaseCurrency.hkd, 1⟩ : Settings).hkdTwdRate) ∧
    ((demoAcc.autoFromInvestments = true →
        (processAccount ⟨BaseCurrency.hkd, 1⟩
            (totalInvBase ⟨BaseCurrency.hkd, 1⟩ [demoInv]) demoAcc).amount
          = specTotalInvestedAnchor [demoInv] / (391 / 50) ∧
        (processAccount ⟨BaseCurrency.hkd, 1⟩
            (totalInvBase ⟨BaseCurrency.hkd, 1⟩ [demoInv]) demoAcc).amount * (391 / 50)
          = specTotalInvestedAnchor [demoInv]) ∧
      (demoAcc.autoFromInvestments = false →
        (processAccount ⟨BaseCurrency.hkd, 1⟩
            (totalInvBase ⟨BaseCurrency.hkd, 1⟩ [demoInv]) demoAcc).amount
          = orZero demoAcc.amount) ∧
      (processAccount ⟨BaseCurrency.hkd, 1⟩ (200192 / 5) demoAcc).amount = 5120 ∧
      (processAccount ⟨BaseCurrency.hkd, 1⟩ (200192 / 5) demoAcc).amount * (391 / 50)
        = 200192 / 5) :=
  ⟨rfl, by norm_num, Or.inl rfl,
    C3_account_aggregation ⟨BaseCurrency.hkd, 1⟩ [demoInv] demoAcc (391 / 50)
      rfl (by norm_num) (Or.inl rfl)⟩

/-- C4: the spec's division hazards are guarded with zero-result fallbacks:
`costInAnchor = 0` (in particular a zero cost basis or zero share count)
yields `profitPct = 0` exactly; a zero (or missing) unit price yields
`suggestedShares = 0`; a zero `totalInvestedBase` yields
`currentAllocationPct = 0`. -/
theorem C4_division_guards (s : Settings) (inv : Investment) (tib tfv p : ℚ) :
    (costHKD inv = 0 → (invDetail s inv).profitPct = 0) ∧
    (orZero inv.initialPurchasePrice = 0 → (invDetail s inv).profitPct = 0) ∧
    (orZero inv.overrideShares = 0 → (invDetail s inv).profitPct = 0) ∧
    (inv.currentPrice = some p → toBase s (p * orOne inv.exchangeRate) = 0 →
        (rebalanceOne s tib tfv (invDetail s inv)).suggest = 0) ∧
    (inv.currentPrice = none →
        (rebalanceOne s tib tfv (invDetail s inv)).suggest = 0) ∧
    (tib = 0 → (rebalanceOne s tib tfv (invDetail s inv)).currentPct = 0) := by
  refine ⟨?_, ?_, ?_, ?_, ?_, ?_⟩
  · intro h
    simp [invDetail, h]
  · intro h
    have hc : costHKD inv = 0 := by simp [costHKD, h]
    simp [invDetail, hc]
  · intro h
    have hc : costHKD inv = 0 := by simp [costHKD, h]
    simp [invDetail, hc]
  · intro hp h0
    simp [rebalanceOne, invDetail, hp, h0]
  · intro hp
    simp [rebalanceOne, invDetail, hp]
  · intro h
    simp [rebalanceOne, h]

/-- Witness for C4: the guards fire on the all-zero position with
`tib = 0`. -/
theorem C4_division_guards_witness :
    costHKD zeroInv = 0 ∧
    (invDetail ⟨BaseCurrency.hkd, 1⟩ zeroInv).profitPct = 0 ∧
    zeroInv.currentPrice = some 0 ∧
    toBase ⟨BaseCurrency.hkd, 1⟩ (0 * orOne zeroInv.exchangeRate) = 0 ∧
    (rebalanceOne ⟨BaseCurrency.hkd, 1⟩ 0 0
        (invDetail ⟨BaseCurrency.hkd, 1⟩ zeroInv)).suggest = 0 ∧
    (rebalanceOne ⟨BaseCurrency.hkd, 1⟩ 0 0
        (invDetail ⟨BaseCurrency.hkd, 1⟩ zeroInv)).currentPct = 0 :=
  ⟨by norm_num [costHKD, zeroInv, orZero, orOne],
    (C4_division_guards ⟨BaseCurrency.hkd, 1⟩ zeroInv 0 0 0).1
      (by norm_num [costHKD, zeroInv, orZero, orOne]),
    rfl,
    by norm_num [toBase],
    (C4_division_guards ⟨BaseCurrency.hkd, 1⟩ zeroInv 0 0 0).2.2.2.1 rfl
      (by norm_num [toBase]),
    (C4_division_guards ⟨BaseCurrency.hkd, 1⟩ zeroInv 0 0 0).2.2.2.2.2 rfl⟩

/-- C6: for every position and every positive `anchorToBaseRate`, the profit
ratio computed from anchor figures equals the ratio computed from base
figures, and the guarded percentage recomputed from base figures equals the
stored `profitPct`. -/
theorem C6_ratio_invariance (s : Settings) (inv : Investment)
    (hr : 0 < s.hkdTwdRate) :
    (invDetail s inv).profitBase / (invDetail s inv).costBase
        = (valueHKD inv - costHKD inv) / costHKD inv ∧
    (if (invDetail s inv).costBase > 0
        then (invDetail s inv).profitBase / (invDetail s inv).costBase * 100 else 0)
        = (invDetail s inv).profitPct := by
  have hk : (0 : ℚ) < baseFactor s := by
    unfold baseFactor
    split
    · norm_num
    · exact hr
  have hratio : (invDetail s inv).profitBase / (invDetail s inv).costBase
      = (valueHKD inv - costHKD inv) / costHKD inv := by
    rw [invDetail_profitBase, invDetail_costBase,
      mul_div_mul_right _ _ (ne_of_gt hk)]
  refine ⟨hratio, ?_⟩
  have hiff : (invDetail s inv).costBase > 0 ↔ costHKD inv > 0 := by
    rw [invDetail_costBase]
    exact mul_pos_iff_of_pos_right hk
  rw [if_congr hiff rfl rfl, hratio]
  simp [invDetail]

/-- Witness for C6: the invariance holds for the sample position with base
currency TWD and `hkdTwdRate = 2`. -/
theorem C6_ratio_invariance_witness :
    (0 : ℚ) < (⟨BaseCurrency.twd, 2⟩ : Settings).hkdTwdRate ∧
    ((invDetail ⟨BaseCurrency.twd, 2⟩ demoInv).profitBase
          / (invDetail ⟨BaseCurrency.twd, 2⟩ demoInv).costBase
        = (valueHKD demoInv - costHKD demoInv) / costHKD demoInv ∧
      (if (invDetail ⟨BaseCurrency.twd, 2⟩ demoInv).costBase > 0
          then (invDetail ⟨BaseCurrency.twd, 2⟩ demoInv).profitBase
            / (invDetail ⟨BaseCurrency.twd, 2⟩ demoInv).costBase * 100 else 0)
        = (invDetail ⟨BaseCurrency.twd, 2⟩ demoInv).profitPct) :=
  ⟨by norm_num, C6_ratio_invariance ⟨BaseCurrency.twd, 2⟩ demoInv (by norm_num)⟩

theorem valueHKD_fill (inv : Investment) : valueHKD (fillDefaults inv) = valueHKD inv := by
  simp [valueHKD, fillDefaults, orZero_fill, orOne_fill]

theorem costHKD_fill (inv : Investment) : costHKD (fillDefaults inv) = costHKD inv := by
  simp [costHKD, fillDefaults, orZero_fill, orOne_fill]

/-- C5: during a batch refresh, a position whose lookup fails is left
completely unchanged; a position whose lookup succeeds has exactly
`currentPrice`, `name`, `currency`, `lastUpdated` and `dataSource`
overwritten; and in both cases `id`, `symbol`, `exchangeRate`,
`overrideShares`, `initialPurchasePrice` and `targetAllocation` are
unchanged. The statement is per-index, so a failure for one position does
not affect the update of any other position in the batch. -/
theorem C5_sync_frame (oracle : String → Option FetchResult) (now : ℕ)
    (invs : List Investment) (r : FetchResult) (i : ℕ) (h : i < invs.length)
    (hm : i < (syncAll oracle now invs).length) :
    (oracle (invs.get ⟨i, h⟩).symbol = none →
        (syncAll oracle now invs).get ⟨i, hm⟩ = invs.get ⟨i, h⟩) ∧
    (oracle (invs.get ⟨i, h⟩).symbol = some r →
        (syncAll oracle now invs).get ⟨i, hm⟩ =
          { invs.get ⟨i, h⟩ with
            currentPrice := some r.price
            name := r.name
            currency := r.currency
            lastUpdated := some now
            dataSource := some "Google Search API" }) ∧
    ((syncAll oracle now invs).get ⟨i, hm⟩).id = (invs.get ⟨i, h⟩).id ∧
    ((syncAll oracle now invs).get ⟨i, hm⟩).symbol = (invs.get ⟨i, h⟩).symbol ∧
    ((syncAll oracle now invs).get ⟨i, hm⟩).exchangeRate
        = (invs.get ⟨i, h⟩).exchangeRate ∧
    ((syncAll oracle now invs).get ⟨i, hm⟩).overrideShares
        = (invs.get ⟨i, h⟩).overrideShares ∧
    ((syncAll oracle now invs).get ⟨i, hm⟩).initialPurchasePrice
        = (invs.get ⟨i, h⟩).initialPurchasePrice ∧
    ((syncAll oracle now invs).get ⟨i, hm⟩).targetAllocation
        = (invs.get ⟨i, h⟩).targetAllocation := by
  have hget : (syncAll oracle now invs).get ⟨i, hm⟩
      = applyFetch now (invs.get ⟨i, h⟩) (oracle (invs.get ⟨i, h⟩).symbol) := by
    simp [syncAll, List.get_eq_getElem, List.getElem_map]
  refine ⟨?_, ?_, ?_, ?_, ?_, ?_, ?_, ?_⟩
  · intro hc
    rw [hget, hc]
    rfl
  · intro hc
    rw [hget, hc]
    rfl
  all_goals
    rw [hget]
    cases hc : oracle (invs.get ⟨i, h⟩).symbol <;> rfl

/-- Witness for C5: over the two-position sample batch, the oracle succeeds
for the first symbol; applying the frame theorem at index 0 discharges the
bounds. -/
theorem C5_sync_frame_witness :
    0 < [demoInv, zeroInv].length ∧
    0 < (syncAll demoOracle 5 [demoInv, zeroInv]).length ∧
    ((demoOracle ([demoInv, zeroInv].get ⟨0, by decide⟩).symbol = none →
        (syncAll demoOracle 5 [demoInv, zeroInv]).get ⟨0, by decide⟩
          = [demoInv, zeroInv].get ⟨0, by decide⟩) ∧
      (demoOracle ([demoInv, zeroInv].get ⟨0, by decide⟩).symbol
          = some { price := 520, name := "Vanguard SP500", currency := "USD" } →
        (syncAll demoOracle 5 [demoInv, zeroInv]).get ⟨0, by decide⟩ =
          { [demoInv, zeroInv].get ⟨0, by decide⟩ with
            currentPrice := some (520 : ℚ)
            name := "Vanguard SP500"
            currency := "USD"
            lastUpdated := some 5
            dataSource := some "Google Search API" }) ∧
      ((syncAll demoOracle 5 [demoInv, zeroInv]).get ⟨0, by decide⟩).id
          = ([demoInv, zeroInv].get ⟨0, by decide⟩).id ∧
      ((syncAll demoOracle 5 [demoInv, zeroInv]).get ⟨0, by decide⟩).symbol
          = ([demoInv, zeroInv].get ⟨0, by decide⟩).symbol ∧
      ((syncAll demoOracle 5 [demoInv, zeroInv]).get ⟨0, by decide⟩).exchangeRate
          = ([demoInv, zeroInv].get ⟨0, by decide⟩).exchangeRate ∧
      ((syncAll demoOracle 5 [demoInv, zeroInv]).get ⟨0, by decide⟩).overrideShares
          = ([demoInv, zeroInv].get ⟨0, by decide⟩).overrideShares ∧
      ((syncAll demoOracle 5 [demoInv, zeroInv]).get ⟨0, by decide⟩).initialPurchasePrice
          = ([demoInv, zeroInv].get ⟨0, by decide⟩).initialPurchasePrice ∧
      ((syncAll demoOracle 5 [demoInv, zeroInv]).get ⟨0, by decide⟩).targetAllocation
          = ([demoInv, zeroInv].get ⟨0, by decide⟩).targetAllocation) :=
  ⟨by decide, by decide,
    C5_sync_frame demoOracle 5 [demoInv, zeroInv]
      { price := 520, name := "Vanguard SP500", currency := "USD" } 0
      (by decide) (by decide)⟩

/-- C7: in position valuation, rebalancing advice and account aggregation,
a missing numeric `currentPrice`, `shareCount` (`overrideShares`) or
`costBasisPrice` (`initialPurchasePrice`) is treated as 0 and a missing
`fxToAnchor` (`exchangeRate`) as 1: every computed output on a record equals
the output on the record with those defaults filled in, and no error is
ever produced (all computations are total). -/
theorem C7_missing_field_defaults (s : Settings) (tib tfv : ℚ)
    (inv : Investment) (acc : AssetAccount) :
    (invDetail s (fillDefaults inv)).shares = (invDetail s inv).shares ∧
    (invDetail s (fillDefaults inv)).buyPrice = (invDetail s inv).buyPrice ∧
    (invDetail s (fillDefaults inv)).costBase = (invDetail s inv).costBase ∧
    (invDetail s (fillDefaults inv)).valueBase = (invDetail s inv).valueBase ∧
    (invDetail s (fillDefaults inv)).profitBase = (invDetail s inv).profitBase ∧
    (invDetail s (fillDefaults inv)).profitPct = (invDetail s inv).profitPct ∧
    (rebalanceOne s tib tfv (invDetail s (fillDefaults inv))).gap
        = (rebalanceOne s tib tfv (invDetail s inv)).gap ∧
    (rebalanceOne s tib tfv (invDetail s (fillDefaults inv))).suggest
        = (rebalanceOne s tib tfv (invDetail s inv)).suggest ∧
    (rebalanceOne s tib tfv (invDetail s (fillDefaults inv))).currentPct
        = (rebalanceOne s tib tfv (invDetail s inv)).currentPct ∧
    (processAccount s tib (fillAccountDefaults acc)).amount
        = (processAccount s tib acc).amount ∧
    (processAccount s tib (fillAccountDefaults acc)).amountBase
        = (processAccount s tib acc).amountBase := by
  refine ⟨?_, ?_, ?_, ?_, ?_, ?_, ?_, ?_, ?_, ?_, ?_⟩
  · simp [invDetail, fillDefaults, orZero_fill]
  · simp [invDetail, fillDefaults, orZero_fill]
  · simp [invDetail, costHKD_fill]
  · simp [invDetail, valueHKD_fill]
  · simp [invDetail, valueHKD_fill, costHKD_fill]
  · simp [invDetail, valueHKD_fill, costHKD_fill]
  · simp [rebalanceOne, invDetail, fillDefaults, valueHKD, orZero_fill, orOne_fill]
  · cases hcp : inv.currentPrice with
    | none =>
        simp [rebalanceOne, invDetail, fillDefaults, hcp, toBase_zero]
    | some p =>
        simp [rebalanceOne, invDetail, fillDefaults, hcp, valueHKD, orZero_fill, orOne_fill]
  · simp [rebalanceOne, invDetail, valueHKD_fill]
  · simp [processAccount, fillAccountDefaults, orZero_fill, orOne_fill]
  · simp [processAccount, fillAccountDefaults, orZero_fill, orOne_fill]

/-- C10: a stored `exchangeRate` of exactly 0 is treated as 1 in position
valuation, account aggregation and the rebalance unit price: every computed
figure equals the figure on the same record with rate 1, and the
auto-derived branch divides by 1 (never by the stored 0), returning
`totalInvHKD` itself. -/
theorem C10_zero_rate_treated_as_one (s : Settings) (inv : Investment)
    (acc : AssetAccount) (tib tfv : ℚ)
    (hi : inv.exchangeRate = some 0) (ha : acc.exchangeRate = some 0) :
    orOne inv.exchangeRate = 1 ∧ orOne acc.exchangeRate = 1 ∧
    (invDetail s inv).valueBase
        = (invDetail s { inv with exchangeRate := some 1 }).valueBase ∧
    (invDetail s inv).costBase
        = (invDetail s { inv with exchangeRate := some 1 }).costBase ∧
    (invDetail s inv).profitBase
        = (invDetail s { inv with exchangeRate := some 1 }).profitBase ∧
    (invDetail s inv).profitPct
        = (invDetail s { inv with exchangeRate := some 1 }).profitPct ∧
    (processAccount s tib acc).amount
        = (processAccount s tib { acc with exchangeRate := some 1 }).amount ∧
    (processAccount s tib acc).amountBase
        = (processAccount s tib { acc with exchangeRate := some 1 }).amountBase ∧
    (acc.autoFromInvestments = true →
        (processAccount s tib acc).amount = totalInvHKD s tib) ∧
    (rebalanceOne s tib tfv (invDetail s inv)).suggest
        = (rebalanceOne s tib tfv
            (invDetail s { inv with exchangeRate := some 1 })).suggest := by
  have h1 : orOne inv.exchangeRate = 1 := by simp [orOne, hi]
  have ha1 : orOne acc.exchangeRate = 1 := by simp [orOne, ha]
  have hv : valueHKD inv = valueHKD { inv with exchangeRate := some 1 } := by
    simp [valueHKD, hi, orOne]
  have hc : costHKD inv = costHKD { inv with exchangeRate := some 1 } := by
    simp [costHKD, hi, orOne]
  refine ⟨h1, ha1, ?_, ?_, ?_, ?_, ?_, ?_, ?_, ?_⟩
  · simp [invDetail, hv]
  · simp [invDetail, hc]
  · simp [invDetail, hv, hc]
  · simp [invDetail, hv, hc]
  · simp [processAccount, ha, orOne]
  · simp [processAccount, ha, orOne]
  · intro hauto
    simp [processAccount, hauto, ha, orOne]
  · cases hcp : inv.currentPrice with
    | none => simp [rebalanceOne, invDetail, hcp]
    | some p => simp [rebalanceOne, invDetail, hcp, hi, orOne, hv]

/-- Witness for C10: the zero-rate sample position and account satisfy the
hypotheses, and the conclusion follows with base HKD, `tib = 100`,
`tfv = 200`. -/
theorem C10_zero_rate_treated_as_one_witness :
    zeroRateInv.exchangeRate = some 0 ∧ zeroRateAcc.exchangeRate = some 0 ∧
    (orOne zeroRateInv.exchangeRate = 1 ∧ orOne zeroRateAcc.exchangeRate = 1 ∧
      (invDetail ⟨BaseCurrency.hkd, 1⟩ zeroRateInv).valueBase
          = (invDetail ⟨BaseCurrency.hkd, 1⟩
              { zeroRateInv with exchangeRate := some 1 }).valueBase ∧
      (invDetail ⟨BaseCurrency.hkd, 1⟩ zeroRateInv).costBase
          = (invDetail ⟨BaseCurrency.hkd, 1⟩
              { zeroRateInv with exchangeRate := some 1 }).costBase ∧
      (invDetail ⟨BaseCurrency.hkd, 1⟩ zeroRateInv).profitBase
          = (invDetail ⟨BaseCurrency.hkd, 1⟩
              { zeroRateInv with exchangeRate := some 1 }).profitBase ∧
      (invDetail ⟨BaseCurrency.hkd, 1⟩ zeroRateInv).profitPct
          = (invDetail ⟨BaseCurrency.hkd, 1⟩
              { zeroRateInv with exchangeRate := some 1 }).profitPct ∧
      (processAccount ⟨BaseCurrency.hkd, 1⟩ 100 zeroRateAcc).amount
          = (processAccount ⟨BaseCurrency.hkd, 1⟩ 100
              { zeroRateAcc with exchangeRate := some 1 }).amount ∧
      (processAccount ⟨BaseCurrency.hkd, 1⟩ 100 zeroRateAcc).amountBase
          = (processAccount ⟨BaseCurrency.hkd, 1⟩ 100
              { zeroRateAcc with exchangeRate := some 1 }).amountBase ∧
      (zeroRateAcc.autoFromInvestments = true →
          (processAccount ⟨BaseCurrency.hkd, 1⟩ 100 zeroRateAcc).amount
            = totalInvHKD ⟨BaseCurrency.hkd, 1⟩ 100) ∧
      (rebalanceOne ⟨BaseCurrency.hkd, 1⟩ 100 200
          (invDetail ⟨BaseCurrency.hkd, 1⟩ zeroRateInv)).suggest
        = (rebalanceOne ⟨BaseCurrency.hkd, 1⟩ 100 200
            (invDetail ⟨BaseCurrency.hkd, 1⟩
              { zeroRateInv with exchangeRate := some 1 })).suggest) :=
  ⟨rfl, rfl,
    C10_zero_rate_treated_as_one ⟨BaseCurrency.hkd, 1⟩ zeroRateInv zeroRateAcc
      100 200 rfl rfl⟩

end WealthTrack
